import Mathlib

/-!
Verification of `scripts/generate-icons.py`, the icon-generation utility of the
homey-starling repository.

The script is shallowly embedded as follows.

* Python `str.format` (used with the keyword arguments `teal=TEAL, dark=DARK_GRAY`
  on icon fragments and `icon_path=...` on the document template) is modelled by
  `pyFormat`, a character-level state machine over the format string. It covers
  exactly the behavior the script exercises: plain replacement fields
  `\x7bname\x7d`, doubled-brace escapes, and the error cases (KeyError for an
  unknown field name, ValueError for stray braces). Replacement fields with
  conversions, format specs, or attribute/index access do not occur in the
  script's data; universal theorems about authored fragments therefore restrict
  field names to plain names (`plainName`) on which this model agrees with
  Python.
* `generate_svg` is a direct translation of the source function of the same
  name; raising is modelled by `Except`.
* `main` is modelled as `mainRun` / `scriptMain`, a pure function from a
  rasterizer oracle (the outcome of each `subprocess.run` invocation of
  `rsvg-convert`, keyed by device name and size name) to the ordered trace of
  filesystem/console effects (`Event`) plus the final outcome: `none` when the
  run finishes, `some e` when an uncaught exception aborts it. The source only
  catches `subprocess.CalledProcessError` (non-zero exit); a failure to start
  the subprocess (`FileNotFoundError`) is modelled by `RasterOutcome.launchError`
  and is not caught, and a `KeyError` escaping `generate_svg` is modelled by
  `RunError.renderError`.
* `base_dir` (the directory two `os.path.dirname` levels above the script file)
  is an opaque parameter `baseDir`; `os.path.join` is `pathJoin`.
-/

set_option maxRecDepth 100000

/-- The left curly-brace character, written via its code point. -/
def lbrace : Char := '\x7b'

/-- The right curly-brace character, written via its code point. -/
def rbrace : Char := '\x7d'

/-- A character list containing neither brace character, i.e. no part of any
`str.format` replacement field or escape. -/
def braceFreeL (l : List Char) : Bool :=
  l.all fun c => !(c = lbrace || c = rbrace)

/-- A plain `str.format` field name: nonempty, brace-free, and free of the
characters `.` `[` `]` `!` `:` that introduce attribute access, indexing,
conversions or format specs in Python. On such names Python's lookup is a plain
dictionary lookup, which is what `pyFormat` implements. -/
def plainName (l : List Char) : Bool :=
  !l.isEmpty && braceFreeL l && l.all fun c =>
    !(c = '.' || c = '[' || c = ']' || c = '!' || c = ':')

/-- State of the `str.format` scanner: plain text, just after `\x7b`, just
after `\x7d`, or inside a replacement field with the name read so far. -/
inductive FmtSt
  | text
  | sawL
  | sawR
  | field (acc : List Char)

/-- Character-level model of Python `str.format` with keyword arguments `m`:
`\x7b\x7b` and `\x7d\x7d` are brace escapes, `\x7bname\x7d` is replaced by
`m name` (KeyError if absent), a stray single brace is a ValueError. Errors are
returned as `Except.error`, modelling the raised exception. The third argument
accumulates the output in reverse, keeping the scan tail-recursive. -/
def pyFmtGo (m : String → Option String) : List Char → FmtSt → List Char → Except String (List Char)
  | [], FmtSt.text, acc => Except.ok acc.reverse
  | [], FmtSt.sawL, _ => Except.error "Single brace in format string"
  | [], FmtSt.sawR, _ => Except.error "Single brace in format string"
  | [], FmtSt.field _, _ => Except.error "expected closing brace in format string"
  | c :: rest, FmtSt.text, acc =>
    if c = lbrace then pyFmtGo m rest FmtSt.sawL acc
    else if c = rbrace then pyFmtGo m rest FmtSt.sawR acc
    else pyFmtGo m rest FmtSt.text (c :: acc)
  | c :: rest, FmtSt.sawL, acc =>
    if c = lbrace then pyFmtGo m rest FmtSt.text (lbrace :: acc)
    else if c = rbrace then
      match m "" with
      | some v => pyFmtGo m rest FmtSt.text (List.reverseAux v.toList acc)
      | none => Except.error "KeyError: "
    else pyFmtGo m rest (FmtSt.field [c]) acc
  | c :: rest, FmtSt.sawR, acc =>
    if c = rbrace then pyFmtGo m rest FmtSt.text (rbrace :: acc)
    else Except.error "Single brace in format string"
  | c :: rest, FmtSt.field nm, acc =>
    if c = rbrace then
      match m (String.mk nm) with
      | some v => pyFmtGo m rest FmtSt.text (List.reverseAux v.toList acc)
      | none => Except.error ("KeyError: " ++ String.mk nm)
    else if c = lbrace then Except.error "unexpected brace in field name"
    else pyFmtGo m rest (FmtSt.field (nm ++ [c])) acc

/-- `pyFormat s m` models `s.format(**m)`. -/
def pyFormat (s : String) (m : String → Option String) : Except String String :=
  match pyFmtGo m s.toList FmtSt.text [] with
  | Except.ok l => Except.ok (String.mk l)
  | Except.error e => Except.error e

/-- Brand color constant `TEAL` from the source. -/
def TEAL : String := "#44DBBD"

/-- Brand color constant `DARK_GRAY` from the source. -/
def DARK_GRAY : String := "#2F2E2E"

/-- Brand color constant `WHITE` from the source. -/
def WHITE : String := "#FFFFFF"

/-- The keyword arguments `teal=TEAL, dark=DARK_GRAY` of the fragment
substitution in `generate_svg`: the name `teal` resolves to `TEAL`, the name
`dark` to `DARK_GRAY`, anything else is absent (a `KeyError`). -/
def iconColors (n : String) : Option String :=
  if n = "teal" then some TEAL else if n = "dark" then some DARK_GRAY else none

/-- The fixed document template `SVG_TEMPLATE` from the source, verbatim. -/
def SVG_TEMPLATE : String := "<?xml version=\"1.0\" encoding=\"UTF-8\"?>
<svg width=\"1000\" height=\"1000\" viewBox=\"0 0 1000 1000\" xmlns=\"http://www.w3.org/2000/svg\">
  <!-- White background required by Homey -->
  <rect width=\"1000\" height=\"1000\" fill=\"white\"/>
  <g transform=\"translate(500, 500)\">
    \x7bicon_path\x7d
  </g>
</svg>
"

/-- The characters of `SVG_TEMPLATE` before its single replacement field. -/
def svgHeadChars : List Char := "<?xml version=\"1.0\" encoding=\"UTF-8\"?>
<svg width=\"1000\" height=\"1000\" viewBox=\"0 0 1000 1000\" xmlns=\"http://www.w3.org/2000/svg\">
  <!-- White background required by Homey -->
  <rect width=\"1000\" height=\"1000\" fill=\"white\"/>
  <g transform=\"translate(500, 500)\">
    ".toList

/-- The characters of `SVG_TEMPLATE` after its single replacement field. -/
def svgTailChars : List Char := "
  </g>
</svg>
".toList

/-- The document produced by rendering the empty fragment: the template with
nothing in place of the replacement field. -/
def emptyFragDoc : String := "<?xml version=\"1.0\" encoding=\"UTF-8\"?>
<svg width=\"1000\" height=\"1000\" viewBox=\"0 0 1000 1000\" xmlns=\"http://www.w3.org/2000/svg\">
  <!-- White background required by Homey -->
  <rect width=\"1000\" height=\"1000\" fill=\"white\"/>
  <g transform=\"translate(500, 500)\">
    
  </g>
</svg>
"

/-- The icon catalog `DEVICE_ICONS` from the source, as an association list in
the definition order of the Python dict (its iteration order). Every fragment
string is verbatim from the source. -/
def DEVICE_ICONS : List (String × String) := [
("all-devices", "
        <!-- Grid of devices -->
        <rect x=\"-350\" y=\"-350\" width=\"300\" height=\"300\" rx=\"40\" fill=\"\x7bteal\x7d\"/>
        <rect x=\"50\" y=\"-350\" width=\"300\" height=\"300\" rx=\"40\" fill=\"\x7bteal\x7d\"/>
        <rect x=\"-350\" y=\"50\" width=\"300\" height=\"300\" rx=\"40\" fill=\"\x7bteal\x7d\"/>
        <rect x=\"50\" y=\"50\" width=\"300\" height=\"300\" rx=\"40\" fill=\"\x7bteal\x7d\"/>
        <!-- Device symbols -->
        <circle cx=\"-200\" cy=\"-200\" r=\"60\" fill=\"white\"/>
        <rect x=\"100\" y=\"-240\" width=\"100\" height=\"80\" rx=\"10\" fill=\"white\"/>
        <polygon points=\"-200,-100 -280,50 -120,50\" fill=\"white\"/>
        <ellipse cx=\"200\" cy=\"200\" rx=\"80\" ry=\"60\" fill=\"white\"/>
    "),
("blinds", "
        <!-- Window frame -->
        <rect x=\"-350\" y=\"-400\" width=\"700\" height=\"800\" rx=\"40\" fill=\"\x7bteal\x7d\"/>
        <!-- Blind slats -->
        <rect x=\"-280\" y=\"-300\" width=\"560\" height=\"60\" rx=\"10\" fill=\"white\"/>
        <rect x=\"-280\" y=\"-180\" width=\"560\" height=\"60\" rx=\"10\" fill=\"white\"/>
        <rect x=\"-280\" y=\"-60\" width=\"560\" height=\"60\" rx=\"10\" fill=\"white\"/>
        <rect x=\"-280\" y=\"60\" width=\"560\" height=\"60\" rx=\"10\" fill=\"white\"/>
        <rect x=\"-280\" y=\"180\" width=\"560\" height=\"60\" rx=\"10\" fill=\"white\"/>
        <!-- Pull cord -->
        <circle cx=\"200\" cy=\"320\" r=\"40\" fill=\"white\"/>
        <rect x=\"190\" y=\"260\" width=\"20\" height=\"60\" fill=\"white\"/>
    "),
("camera", "
        <!-- Camera body -->
        <rect x=\"-350\" y=\"-200\" width=\"500\" height=\"350\" rx=\"50\" fill=\"\x7bteal\x7d\"/>
        <!-- Lens housing -->
        <circle cx=\"-100\" cy=\"-25\" r=\"130\" fill=\"\x7bdark\x7d\"/>
        <circle cx=\"-100\" cy=\"-25\" r=\"90\" fill=\"white\"/>
        <circle cx=\"-100\" cy=\"-25\" r=\"50\" fill=\"\x7bteal\x7d\"/>
        <!-- Side mount -->
        <rect x=\"150\" y=\"-120\" width=\"150\" height=\"200\" rx=\"30\" fill=\"\x7bteal\x7d\"/>
        <!-- Base/stand -->
        <rect x=\"-200\" y=\"150\" width=\"250\" height=\"150\" rx=\"20\" fill=\"\x7bdark\x7d\"/>
        <!-- LED indicator -->
        <circle cx=\"80\" cy=\"-120\" r=\"25\" fill=\"#FF5555\"/>
    "),
("diffuser", "
        <!-- Diffuser body -->
        <path d=\"M -200,350 Q -280,0 0,-300 Q 280,0 200,350 Z\" fill=\"\x7bteal\x7d\"/>
        <!-- Base -->
        <ellipse cx=\"0\" cy=\"350\" rx=\"250\" ry=\"100\" fill=\"\x7bdark\x7d\"/>
        <!-- Mist particles -->
        <circle cx=\"-80\" cy=\"-350\" r=\"40\" fill=\"\x7bteal\x7d\" opacity=\"0.7\"/>
        <circle cx=\"60\" cy=\"-400\" r=\"50\" fill=\"\x7bteal\x7d\" opacity=\"0.5\"/>
        <circle cx=\"-30\" cy=\"-450\" r=\"35\" fill=\"\x7bteal\x7d\" opacity=\"0.6\"/>
        <circle cx=\"100\" cy=\"-480\" r=\"30\" fill=\"\x7bteal\x7d\" opacity=\"0.4\"/>
        <!-- Opening -->
        <ellipse cx=\"0\" cy=\"-280\" rx=\"80\" ry=\"40\" fill=\"white\"/>
    "),
("doorbell", "
        <!-- Doorbell body -->
        <rect x=\"-180\" y=\"-400\" width=\"360\" height=\"700\" rx=\"60\" fill=\"\x7bteal\x7d\"/>
        <!-- Camera lens -->
        <circle cx=\"0\" cy=\"-200\" r=\"100\" fill=\"\x7bdark\x7d\"/>
        <circle cx=\"0\" cy=\"-200\" r=\"65\" fill=\"white\"/>
        <circle cx=\"0\" cy=\"-200\" r=\"35\" fill=\"\x7bdark\x7d\"/>
        <!-- Button -->
        <rect x=\"-80\" y=\"80\" width=\"160\" height=\"160\" rx=\"30\" fill=\"white\"/>
        <circle cx=\"0\" cy=\"160\" r=\"50\" fill=\"\x7bteal\x7d\"/>
        <!-- Speaker grille -->
        <rect x=\"-100\" y=\"-50\" width=\"200\" height=\"10\" rx=\"5\" fill=\"\x7bdark\x7d\"/>
        <rect x=\"-100\" y=\"-25\" width=\"200\" height=\"10\" rx=\"5\" fill=\"\x7bdark\x7d\"/>
        <rect x=\"-100\" y=\"0\" width=\"200\" height=\"10\" rx=\"5\" fill=\"\x7bdark\x7d\"/>
    "),
("fan", "
        <!-- Fan blades -->
        <ellipse cx=\"0\" cy=\"-250\" rx=\"80\" ry=\"200\" fill=\"\x7bteal\x7d\"/>
        <ellipse cx=\"0\" cy=\"-250\" rx=\"80\" ry=\"200\" fill=\"\x7bteal\x7d\" transform=\"rotate(72)\"/>
        <ellipse cx=\"0\" cy=\"-250\" rx=\"80\" ry=\"200\" fill=\"\x7bteal\x7d\" transform=\"rotate(144)\"/>
        <ellipse cx=\"0\" cy=\"-250\" rx=\"80\" ry=\"200\" fill=\"\x7bteal\x7d\" transform=\"rotate(216)\"/>
        <ellipse cx=\"0\" cy=\"-250\" rx=\"80\" ry=\"200\" fill=\"\x7bteal\x7d\" transform=\"rotate(288)\"/>
        <!-- Center hub -->
        <circle cx=\"0\" cy=\"0\" r=\"100\" fill=\"\x7bdark\x7d\"/>
        <circle cx=\"0\" cy=\"0\" r=\"60\" fill=\"white\"/>
    "),
("garage", "
        <!-- Garage outline -->
        <path d=\"M -400,350 L -400,-150 L 0,-350 L 400,-150 L 400,350 Z\" fill=\"\x7bteal\x7d\"/>
        <!-- Door panels -->
        <rect x=\"-320\" y=\"-50\" width=\"640\" height=\"100\" rx=\"10\" fill=\"white\"/>
        <rect x=\"-320\" y=\"80\" width=\"640\" height=\"100\" rx=\"10\" fill=\"white\"/>
        <rect x=\"-320\" y=\"210\" width=\"640\" height=\"100\" rx=\"10\" fill=\"white\"/>
        <!-- Window -->
        <rect x=\"-100\" y=\"-200\" width=\"200\" height=\"80\" rx=\"10\" fill=\"white\"/>
        <!-- Handle -->
        <circle cx=\"280\" cy=\"260\" r=\"30\" fill=\"\x7bdark\x7d\"/>
    "),
("heater-cooler", "
        <!-- Unit body -->
        <rect x=\"-350\" y=\"-350\" width=\"700\" height=\"600\" rx=\"50\" fill=\"\x7bteal\x7d\"/>
        <!-- Vents -->
        <rect x=\"-280\" y=\"-250\" width=\"560\" height=\"40\" rx=\"10\" fill=\"white\"/>
        <rect x=\"-280\" y=\"-170\" width=\"560\" height=\"40\" rx=\"10\" fill=\"white\"/>
        <rect x=\"-280\" y=\"-90\" width=\"560\" height=\"40\" rx=\"10\" fill=\"white\"/>
        <rect x=\"-280\" y=\"-10\" width=\"560\" height=\"40\" rx=\"10\" fill=\"white\"/>
        <rect x=\"-280\" y=\"70\" width=\"560\" height=\"40\" rx=\"10\" fill=\"white\"/>
        <!-- Control panel -->
        <rect x=\"-200\" y=\"170\" width=\"400\" height=\"60\" rx=\"15\" fill=\"\x7bdark\x7d\"/>
        <!-- Temperature display -->
        <circle cx=\"0\" cy=\"350\" r=\"80\" fill=\"white\"/>
        <text x=\"0\" y=\"370\" text-anchor=\"middle\" font-size=\"80\" font-family=\"Arial\" font-weight=\"bold\" fill=\"\x7bteal\x7d\">72°</text>
    "),
("home-away", "
        <!-- House shape -->
        <path d=\"M 0,-400 L -380,-50 L -380,380 L 380,380 L 380,-50 Z\" fill=\"\x7bteal\x7d\"/>
        <!-- Roof accent -->
        <path d=\"M 0,-400 L -420,-20 L -380,-50 L 0,-350 L 380,-50 L 420,-20 Z\" fill=\"\x7bdark\x7d\"/>
        <!-- Door -->
        <rect x=\"-100\" y=\"50\" width=\"200\" height=\"330\" rx=\"20\" fill=\"white\"/>
        <circle cx=\"60\" cy=\"220\" r=\"25\" fill=\"\x7bteal\x7d\"/>
        <!-- Window -->
        <rect x=\"-280\" y=\"-20\" width=\"140\" height=\"140\" rx=\"15\" fill=\"white\"/>
        <rect x=\"140\" y=\"-20\" width=\"140\" height=\"140\" rx=\"15\" fill=\"white\"/>
    "),
("humidifier", "
        <!-- Tank/body -->
        <rect x=\"-250\" y=\"-150\" width=\"500\" height=\"500\" rx=\"60\" fill=\"\x7bteal\x7d\"/>
        <!-- Top cap -->
        <ellipse cx=\"0\" cy=\"-200\" rx=\"180\" ry=\"80\" fill=\"\x7bdark\x7d\"/>
        <!-- Water droplets -->
        <path d=\"M -120,-300 Q -120,-400 -60,-450 Q 0,-400 0,-300 Q -60,-260 -120,-300 Z\" fill=\"white\"/>
        <path d=\"M 40,-330 Q 40,-430 100,-480 Q 160,-430 160,-330 Q 100,-290 40,-330 Z\" fill=\"white\"/>
        <!-- Water level indicator -->
        <rect x=\"-180\" y=\"50\" width=\"360\" height=\"200\" rx=\"20\" fill=\"white\" opacity=\"0.5\"/>
        <rect x=\"-180\" y=\"150\" width=\"360\" height=\"100\" rx=\"20\" fill=\"white\"/>
        <!-- Mist output -->
        <ellipse cx=\"0\" cy=\"-200\" rx=\"60\" ry=\"30\" fill=\"white\"/>
    "),
("kettle", "
        <!-- Kettle body -->
        <path d=\"M -220,300 Q -280,0 0,-300 Q 280,0 220,300 Z\" fill=\"\x7bteal\x7d\"/>
        <!-- Base -->
        <ellipse cx=\"0\" cy=\"300\" rx=\"250\" ry=\"80\" fill=\"\x7bdark\x7d\"/>
        <!-- Handle -->
        <path d=\"M 200,-100 Q 380,-100 380,100 Q 380,250 250,280\"
              stroke=\"\x7bdark\x7d\" stroke-width=\"50\" fill=\"none\" stroke-linecap=\"round\"/>
        <!-- Lid -->
        <ellipse cx=\"0\" cy=\"-280\" rx=\"120\" ry=\"50\" fill=\"\x7bdark\x7d\"/>
        <ellipse cx=\"0\" cy=\"-300\" rx=\"80\" ry=\"35\" fill=\"white\"/>
        <!-- Steam -->
        <path d=\"M -50,-380 Q -80,-450 -40,-500\" stroke=\"white\" stroke-width=\"25\" fill=\"none\" stroke-linecap=\"round\"/>
        <path d=\"M 30,-380 Q 60,-470 20,-530\" stroke=\"white\" stroke-width=\"25\" fill=\"none\" stroke-linecap=\"round\"/>
    "),
("light", "
        <!-- Bulb glass -->
        <circle cx=\"0\" cy=\"-100\" r=\"280\" fill=\"\x7bteal\x7d\"/>
        <!-- Light rays -->
        <rect x=\"-20\" y=\"-450\" width=\"40\" height=\"80\" rx=\"20\" fill=\"white\"/>
        <rect x=\"-20\" y=\"-450\" width=\"40\" height=\"80\" rx=\"20\" fill=\"white\" transform=\"rotate(45)\"/>
        <rect x=\"-20\" y=\"-450\" width=\"40\" height=\"80\" rx=\"20\" fill=\"white\" transform=\"rotate(-45)\"/>
        <rect x=\"-20\" y=\"-450\" width=\"40\" height=\"80\" rx=\"20\" fill=\"white\" transform=\"rotate(90)\"/>
        <rect x=\"-20\" y=\"-450\" width=\"40\" height=\"80\" rx=\"20\" fill=\"white\" transform=\"rotate(-90)\"/>
        <!-- Inner glow -->
        <circle cx=\"0\" cy=\"-100\" r=\"180\" fill=\"white\" opacity=\"0.6\"/>
        <circle cx=\"0\" cy=\"-100\" r=\"100\" fill=\"white\"/>
        <!-- Base/screw -->
        <rect x=\"-120\" y=\"180\" width=\"240\" height=\"50\" rx=\"10\" fill=\"\x7bdark\x7d\"/>
        <rect x=\"-100\" y=\"230\" width=\"200\" height=\"40\" rx=\"8\" fill=\"white\"/>
        <rect x=\"-80\" y=\"270\" width=\"160\" height=\"40\" rx=\"8\" fill=\"\x7bdark\x7d\"/>
        <rect x=\"-60\" y=\"310\" width=\"120\" height=\"50\" rx=\"25\" fill=\"white\"/>
    "),
("lock", "
        <!-- Lock body -->
        <rect x=\"-250\" y=\"-100\" width=\"500\" height=\"450\" rx=\"50\" fill=\"\x7bteal\x7d\"/>
        <!-- Shackle -->
        <path d=\"M -150,-100 L -150,-250 Q -150,-400 0,-400 Q 150,-400 150,-250 L 150,-100\"
              stroke=\"\x7bdark\x7d\" stroke-width=\"70\" fill=\"none\" stroke-linecap=\"round\"/>
        <!-- Keyhole -->
        <circle cx=\"0\" cy=\"80\" r=\"80\" fill=\"white\"/>
        <rect x=\"-30\" y=\"80\" width=\"60\" height=\"150\" rx=\"15\" fill=\"white\"/>
        <!-- Keyhole detail -->
        <circle cx=\"0\" cy=\"80\" r=\"40\" fill=\"\x7bteal\x7d\"/>
    "),
("outlet", "
        <!-- Outlet plate -->
        <rect x=\"-300\" y=\"-380\" width=\"600\" height=\"760\" rx=\"60\" fill=\"\x7bteal\x7d\"/>
        <!-- Outlet face -->
        <rect x=\"-220\" y=\"-300\" width=\"440\" height=\"500\" rx=\"40\" fill=\"white\"/>
        <!-- Plug holes -->
        <rect x=\"-120\" y=\"-180\" width=\"60\" height=\"120\" rx=\"15\" fill=\"\x7bdark\x7d\"/>
        <rect x=\"60\" y=\"-180\" width=\"60\" height=\"120\" rx=\"15\" fill=\"\x7bdark\x7d\"/>
        <!-- Ground hole -->
        <circle cx=\"0\" cy=\"60\" r=\"40\" fill=\"\x7bdark\x7d\"/>
        <!-- Screw holes -->
        <circle cx=\"0\" cy=\"-250\" r=\"20\" fill=\"\x7bteal\x7d\"/>
        <circle cx=\"0\" cy=\"150\" r=\"20\" fill=\"\x7bteal\x7d\"/>
    "),
("purifier", "
        <!-- Purifier body -->
        <rect x=\"-280\" y=\"-380\" width=\"560\" height=\"760\" rx=\"50\" fill=\"\x7bteal\x7d\"/>
        <!-- Air intake vents -->
        <ellipse cx=\"0\" cy=\"-220\" rx=\"160\" ry=\"60\" fill=\"\x7bdark\x7d\"/>
        <ellipse cx=\"0\" cy=\"-100\" rx=\"160\" ry=\"60\" fill=\"\x7bdark\x7d\"/>
        <ellipse cx=\"0\" cy=\"20\" rx=\"160\" ry=\"60\" fill=\"\x7bdark\x7d\"/>
        <!-- Control panel -->
        <rect x=\"-180\" y=\"140\" width=\"360\" height=\"100\" rx=\"20\" fill=\"white\"/>
        <!-- Air quality indicator -->
        <circle cx=\"0\" cy=\"300\" r=\"50\" fill=\"white\"/>
        <circle cx=\"0\" cy=\"300\" r=\"30\" fill=\"#55CC55\"/>
    "),
("robot", "
        <!-- Robot body (top view) -->
        <circle cx=\"0\" cy=\"0\" r=\"380\" fill=\"\x7bteal\x7d\"/>
        <circle cx=\"0\" cy=\"0\" r=\"300\" fill=\"\x7bdark\x7d\"/>
        <circle cx=\"0\" cy=\"0\" r=\"220\" fill=\"white\"/>
        <!-- Buttons/display -->
        <circle cx=\"0\" cy=\"-60\" r=\"60\" fill=\"\x7bteal\x7d\"/>
        <rect x=\"-100\" y=\"40\" width=\"200\" height=\"60\" rx=\"15\" fill=\"\x7bteal\x7d\"/>
        <!-- Direction indicator (forward) -->
        <polygon points=\"0,-350 -50,-280 50,-280\" fill=\"white\"/>
        <!-- Bumper sensor -->
        <path d=\"M -300,-200 Q -380,0 -300,200\" stroke=\"white\" stroke-width=\"20\" fill=\"none\"/>
        <path d=\"M 300,-200 Q 380,0 300,200\" stroke=\"white\" stroke-width=\"20\" fill=\"none\"/>
    "),
("sensor", "
        <!-- Sensor body -->
        <circle cx=\"0\" cy=\"0\" r=\"250\" fill=\"\x7bteal\x7d\"/>
        <circle cx=\"0\" cy=\"0\" r=\"160\" fill=\"white\"/>
        <circle cx=\"0\" cy=\"0\" r=\"80\" fill=\"\x7bteal\x7d\"/>
        <!-- Detection waves left -->
        <path d=\"M -300,-150 Q -420,-150 -420,0 Q -420,150 -300,150\"
              stroke=\"\x7bteal\x7d\" stroke-width=\"35\" fill=\"none\" stroke-linecap=\"round\"/>
        <path d=\"M -350,-100 Q -450,-100 -450,0 Q -450,100 -350,100\"
              stroke=\"\x7bteal\x7d\" stroke-width=\"35\" fill=\"none\" stroke-linecap=\"round\" opacity=\"0.6\"/>
        <!-- Detection waves right -->
        <path d=\"M 300,-150 Q 420,-150 420,0 Q 420,150 300,150\"
              stroke=\"\x7bteal\x7d\" stroke-width=\"35\" fill=\"none\" stroke-linecap=\"round\"/>
        <path d=\"M 350,-100 Q 450,-100 450,0 Q 450,100 350,100\"
              stroke=\"\x7bteal\x7d\" stroke-width=\"35\" fill=\"none\" stroke-linecap=\"round\" opacity=\"0.6\"/>
    "),
("smoke-co-detector", "
        <!-- Detector body -->
        <circle cx=\"0\" cy=\"0\" r=\"380\" fill=\"\x7bteal\x7d\"/>
        <circle cx=\"0\" cy=\"0\" r=\"280\" fill=\"white\"/>
        <circle cx=\"0\" cy=\"0\" r=\"180\" fill=\"\x7bteal\x7d\"/>
        <!-- Center indicator -->
        <circle cx=\"0\" cy=\"0\" r=\"80\" fill=\"white\"/>
        <circle cx=\"0\" cy=\"0\" r=\"50\" fill=\"#FF5555\"/>
        <!-- Vent holes -->
        <circle cx=\"-200\" cy=\"-200\" r=\"35\" fill=\"\x7bdark\x7d\"/>
        <circle cx=\"200\" cy=\"-200\" r=\"35\" fill=\"\x7bdark\x7d\"/>
        <circle cx=\"-200\" cy=\"200\" r=\"35\" fill=\"\x7bdark\x7d\"/>
        <circle cx=\"200\" cy=\"200\" r=\"35\" fill=\"\x7bdark\x7d\"/>
        <circle cx=\"0\" cy=\"-280\" r=\"30\" fill=\"\x7bdark\x7d\"/>
        <circle cx=\"0\" cy=\"280\" r=\"30\" fill=\"\x7bdark\x7d\"/>
    "),
("switch", "
        <!-- Switch plate -->
        <rect x=\"-220\" y=\"-380\" width=\"440\" height=\"760\" rx=\"50\" fill=\"\x7bteal\x7d\"/>
        <!-- Toggle area -->
        <rect x=\"-150\" y=\"-280\" width=\"300\" height=\"400\" rx=\"30\" fill=\"white\"/>
        <!-- Toggle switch (on position) -->
        <rect x=\"-100\" y=\"-230\" width=\"200\" height=\"150\" rx=\"20\" fill=\"\x7bteal\x7d\"/>
        <!-- Toggle indicator -->
        <circle cx=\"0\" cy=\"-155\" r=\"30\" fill=\"white\"/>
        <!-- Label area -->
        <rect x=\"-100\" y=\"180\" width=\"200\" height=\"60\" rx=\"15\" fill=\"white\"/>
        <!-- Screw holes -->
        <circle cx=\"0\" cy=\"-330\" r=\"25\" fill=\"\x7bdark\x7d\"/>
        <circle cx=\"0\" cy=\"330\" r=\"25\" fill=\"\x7bdark\x7d\"/>
    "),
("thermostat", "
        <!-- Thermostat body -->
        <circle cx=\"0\" cy=\"0\" r=\"380\" fill=\"\x7bteal\x7d\"/>
        <circle cx=\"0\" cy=\"0\" r=\"320\" fill=\"\x7bdark\x7d\"/>
        <circle cx=\"0\" cy=\"0\" r=\"260\" fill=\"white\"/>
        <!-- Temperature display -->
        <text x=\"0\" y=\"30\" text-anchor=\"middle\" font-size=\"200\" font-family=\"Arial\" font-weight=\"bold\" fill=\"\x7bdark\x7d\">72</text>
        <text x=\"120\" y=\"-40\" font-size=\"60\" font-family=\"Arial\" fill=\"\x7bdark\x7d\">°F</text>
        <!-- Mode indicator -->
        <circle cx=\"0\" cy=\"140\" r=\"30\" fill=\"\x7bteal\x7d\"/>
        <!-- Outer ring markers -->
        <rect x=\"-10\" y=\"-370\" width=\"20\" height=\"40\" rx=\"5\" fill=\"white\"/>
        <rect x=\"-10\" y=\"-370\" width=\"20\" height=\"40\" rx=\"5\" fill=\"white\" transform=\"rotate(30)\"/>
        <rect x=\"-10\" y=\"-370\" width=\"20\" height=\"40\" rx=\"5\" fill=\"white\" transform=\"rotate(60)\"/>
        <rect x=\"-10\" y=\"-370\" width=\"20\" height=\"40\" rx=\"5\" fill=\"white\" transform=\"rotate(90)\"/>
        <rect x=\"-10\" y=\"-370\" width=\"20\" height=\"40\" rx=\"5\" fill=\"white\" transform=\"rotate(-30)\"/>
        <rect x=\"-10\" y=\"-370\" width=\"20\" height=\"40\" rx=\"5\" fill=\"white\" transform=\"rotate(-60)\"/>
        <rect x=\"-10\" y=\"-370\" width=\"20\" height=\"40\" rx=\"5\" fill=\"white\" transform=\"rotate(-90)\"/>
    "),
("valve", "
        <!-- Pipes -->
        <rect x=\"-450\" y=\"-80\" width=\"350\" height=\"160\" rx=\"20\" fill=\"\x7bdark\x7d\"/>
        <rect x=\"100\" y=\"-80\" width=\"350\" height=\"160\" rx=\"20\" fill=\"\x7bdark\x7d\"/>
        <!-- Valve body -->
        <circle cx=\"0\" cy=\"0\" r=\"180\" fill=\"\x7bteal\x7d\"/>
        <circle cx=\"0\" cy=\"0\" r=\"120\" fill=\"white\"/>
        <!-- Handle stem -->
        <rect x=\"-30\" y=\"-350\" width=\"60\" height=\"180\" rx=\"15\" fill=\"\x7bdark\x7d\"/>
        <!-- Handle wheel -->
        <ellipse cx=\"0\" cy=\"-350\" rx=\"150\" ry=\"60\" fill=\"\x7bteal\x7d\"/>
        <ellipse cx=\"0\" cy=\"-350\" rx=\"100\" ry=\"40\" fill=\"white\"/>
        <!-- Flow indicator arrows -->
        <polygon points=\"-350,0 -280,-40 -280,40\" fill=\"white\"/>
        <polygon points=\"350,0 280,-40 280,40\" fill=\"white\"/>
    ")]

/-- Direct translation of the source function `generate_svg`: substitute the
brand colors into the fragment with `str.format`, then substitute the result
for the `icon_path` field of `SVG_TEMPLATE`. A `KeyError`/`ValueError` raised
by either `format` call is the `Except.error` case. The `device_name` argument
is accepted and ignored, exactly as in the source. -/
def generate_svg (device_name icon_path : String) : Except String String :=
  match pyFormat icon_path iconColors with
  | Except.error e => Except.error e
  | Except.ok icon_with_colors =>
    pyFormat SVG_TEMPLATE (fun n => if n = "icon_path" then some icon_with_colors else none)

/-- Outcome of one `subprocess.run(["rsvg-convert", ...], check=True, ...)`
invocation: normal exit, non-zero exit (Python raises
`subprocess.CalledProcessError`, whose string rendering is `msg`), or failure
to start the subprocess at all, e.g. the tool is not installed (Python raises
`FileNotFoundError`, rendered as `msg`). -/
inductive RasterOutcome
  | success
  | exitError (msg : String)
  | launchError (msg : String)
deriving DecidableEq

/-- Environment model: what each rasterizer invocation does, keyed by device
name and size name. -/
abbrev RasterOracle := String → String → RasterOutcome

/-- One observable effect of the run, in order: `os.makedirs`, writing a file,
printing a console line, invoking the rasterizer subprocess, `os.remove`. -/
inductive Event
  | makedirs (path : String)
  | writeFile (path content : String)
  | printLine (line : String)
  | runRasterizer (src : String) (size : Nat) (dst : String)
  | removeFile (path : String)
deriving DecidableEq

/-- An exception that escapes `main` uncaught and aborts the run: a render
error (`KeyError` from `generate_svg`) or a rasterizer launch failure
(`FileNotFoundError` from `subprocess.run`). -/
inductive RunError
  | renderError (msg : String)
  | rasterLaunchError (msg : String)
deriving DecidableEq

/-- `os.path.join` for one component. -/
def pathJoin (a b : String) : String := a ++ "/" ++ b

/-- The size table `sizes = [("small", 75), ("large", 500), ("xlarge", 1000)]`
from `main`, in source order. -/
def sizesList : List (String × Nat) := [("small", 75), ("large", 500), ("xlarge", 1000)]

/-- The inner `for size_name, size in sizes:` loop of `main`: invoke the
rasterizer for each size. Non-zero exit is caught (`except
subprocess.CalledProcessError`) and reported with a console error line, and the
loop continues; a launch failure is an uncaught exception that ends the loop
(and the run) immediately. Returns the events of the loop and the uncaught
exception, if any. -/
def processSizes (oracle : RasterOracle) (device_name images_path svg_file : String) :
    List (String × Nat) → List Event × Option RunError
  | [] => ([], none)
  | (size_name, size) :: rest =>
    let png_file := pathJoin images_path (size_name ++ ".png")
    match oracle device_name size_name with
    | RasterOutcome.success =>
      match processSizes oracle device_name images_path svg_file rest with
      | (evs, err) =>
        (Event.runRasterizer svg_file size png_file ::
          Event.printLine ("  Created " ++ size_name ++ ".png (" ++ toString size ++ "x" ++ toString size ++ ")") ::
          evs, err)
    | RasterOutcome.exitError msg =>
      match processSizes oracle device_name images_path svg_file rest with
      | (evs, err) =>
        (Event.runRasterizer svg_file size png_file ::
          Event.printLine ("  ERROR creating " ++ size_name ++ ".png: " ++ msg) ::
          evs, err)
    | RasterOutcome.launchError msg =>
      ([Event.runRasterizer svg_file size png_file], some (RunError.rasterLaunchError msg))

/-- The body of `main`'s `for device_name, icon_path in DEVICE_ICONS.items():`
loop for one catalog entry: create the images directory, render and write
`icon.svg`, print the progress line, rasterize the three sizes, and remove
`icon.svg` — the removal happens only if no exception escaped the size loop,
exactly as in the source (an uncaught exception skips `os.remove`). A render
error aborts before the file write. -/
def processIcon (oracle : RasterOracle) (drivers_dir device_name icon_path : String) :
    List Event × Option RunError :=
  let images_path := pathJoin (pathJoin (pathJoin drivers_dir device_name) "assets") "images"
  let svg_file := pathJoin images_path "icon.svg"
  match generate_svg device_name icon_path with
  | Except.error msg => ([Event.makedirs images_path], some (RunError.renderError msg))
  | Except.ok svg_content =>
    match processSizes oracle device_name images_path svg_file sizesList with
    | (evs, some e) =>
      (Event.makedirs images_path :: Event.writeFile svg_file svg_content ::
        Event.printLine ("Created SVG for " ++ device_name) :: evs, some e)
    | (evs, none) =>
      (Event.makedirs images_path :: Event.writeFile svg_file svg_content ::
        Event.printLine ("Created SVG for " ++ device_name) ::
        (evs ++ [Event.removeFile svg_file]), none)

/-- The catalog loop of `main` over a list of entries: process each entry in
order; an uncaught exception from one entry aborts the whole run, leaving all
later entries unprocessed. -/
def mainRun (oracle : RasterOracle) (drivers_dir : String) :
    List (String × String) → List Event × Option RunError
  | [] => ([], none)
  | (device_name, icon_path) :: rest =>
    match processIcon oracle drivers_dir device_name icon_path with
    | (evs, some e) => (evs, some e)
    | (evs, none) =>
      match mainRun oracle drivers_dir rest with
      | (evs2, err2) => (evs ++ evs2, err2)

/-- The whole of `main`: iterate over `DEVICE_ICONS` with
`drivers_dir = os.path.join(base_dir, "drivers")`, where `baseDir` stands for
`os.path.dirname(os.path.dirname(os.path.abspath(__file__)))` — the directory
one level above the script's own containing directory. -/
def scriptMain (baseDir : String) (oracle : RasterOracle) : List Event × Option RunError :=
  mainRun oracle (pathJoin baseDir "drivers") DEVICE_ICONS

/-- The oracle of a machine where every rasterizer invocation succeeds. -/
def successOracle : RasterOracle := fun _ _ => RasterOutcome.success

/-- `True` iff `generate_svg` succeeds on a catalog entry. -/
def renderOk (p : String × String) : Bool :=
  match generate_svg p.1 p.2 with
  | Except.ok _ => true
  | Except.error _ => false

/-- The destination asset directory `<drivers_dir>/<name>/assets/images`
computed by `main` for one catalog identifier. -/
def imagesPathD (drivers_dir name : String) : String :=
  pathJoin (pathJoin (pathJoin drivers_dir name) "assets") "images"

/-- The intermediate vector document path `<images dir>/icon.svg`. -/
def svgFileD (drivers_dir name : String) : String :=
  pathJoin (imagesPathD drivers_dir name) "icon.svg"

/-- Number of icons whose processing was started, read off a trace: each icon
begins with exactly one `os.makedirs` call. -/
def countIconsStarted (evs : List Event) : Nat :=
  evs.countP fun e => match e with
    | Event.makedirs _ => true
    | _ => false

/-- The paths of the files written during a run, in order. A full run writes
exactly one `icon.svg` per catalog entry. -/
def svgWrites (evs : List Event) : List String :=
  evs.filterMap fun e => match e with
    | Event.writeFile p _ => some p
    | _ => none


/-- `startsWithChars pat l` iff `pat` is an initial segment of `l`. -/
def startsWithChars : List Char → List Char → Bool
  | [], _ => true
  | _ :: _, [] => false
  | p :: ps, c :: cs => p = c && startsWithChars ps cs

/-- `containsSeq pat l` iff `pat` occurs contiguously in `l`. -/
def containsSeq (pat : List Char) : List Char → Bool
  | [] => pat.isEmpty
  | c :: rest => startsWithChars pat (c :: rest) || containsSeq pat rest

/-- Index of the first contiguous occurrence of `pat` in `l` (length of `l` if
absent). -/
def idxOfSeq (pat : List Char) : List Char → Nat
  | [] => 0
  | c :: rest => if startsWithChars pat (c :: rest) then 0 else idxOfSeq pat rest + 1

/-- Every `#` in `l` starts one of the two literal status colors `#FF5555`
or `#55CC55`. -/
def hashOk : List Char → Bool
  | [] => true
  | c :: rest =>
    (if c = '#' then
      startsWithChars "FF5555".toList rest || startsWithChars "55CC55".toList rest
    else true) && hashOk rest

/-- The quoted values of all `fill="..."` and `stroke="..."` attributes
occurring in `l`, in order. -/
def attrValuesGo : List Char → List String
  | [] => []
  | c :: rest =>
    if startsWithChars "fill=\"".toList (c :: rest) then
      String.mk (List.takeWhile (fun d => !(d = '"')) (List.drop 6 (c :: rest))) :: attrValuesGo rest
    else if startsWithChars "stroke=\"".toList (c :: rest) then
      String.mk (List.takeWhile (fun d => !(d = '"')) (List.drop 8 (c :: rest))) :: attrValuesGo rest
    else attrValuesGo rest

/-- The fill/stroke paint values of a fragment. -/
def paintValues (frag : String) : List String := attrValuesGo frag.toList

/-- The paints a fragment may mention: the two color parameters (still in
placeholder form before substitution), literal white, the two status colors,
and the non-paint `none`. -/
def allowedPaints : List String :=
  ["\x7bteal\x7d", "\x7bdark\x7d", "white", "#FF5555", "#55CC55", "none"]

/-- The replacement-field names occurring in a format string, collected by the
same scan `str.format` performs (brace escapes skipped). -/
def fieldNamesGo : FmtSt → List Char → List String
  | _, [] => []
  | FmtSt.text, c :: rest =>
    if c = lbrace then fieldNamesGo FmtSt.sawL rest
    else if c = rbrace then fieldNamesGo FmtSt.sawR rest
    else fieldNamesGo FmtSt.text rest
  | FmtSt.sawL, c :: rest =>
    if c = lbrace then fieldNamesGo FmtSt.text rest
    else if c = rbrace then "" :: fieldNamesGo FmtSt.text rest
    else fieldNamesGo (FmtSt.field [c]) rest
  | FmtSt.sawR, _ :: rest => fieldNamesGo FmtSt.text rest
  | FmtSt.field nm, c :: rest =>
    if c = rbrace then String.mk nm :: fieldNamesGo FmtSt.text rest
    else if c = lbrace then fieldNamesGo FmtSt.text rest
    else fieldNamesGo (FmtSt.field (nm ++ [c])) rest

/-- The color-placeholder names a fragment references. -/
def placeholdersOf (frag : String) : List String := fieldNamesGo FmtSt.text frag.toList

/-- An authored shape fragment, structured: a sequence of literal pieces and
color-placeholder fields. `assembleChars` flattens it to the raw fragment text
the catalog would hold. -/
inductive Seg
  | lit (s : String)
  | field (n : String)

/-- The raw text of one fragment piece: a literal verbatim, a field in
`\x7bname\x7d` form. -/
def segChars : Seg → List Char
  | Seg.lit s => s.toList
  | Seg.field n => lbrace :: (n.toList ++ [rbrace])

/-- The raw text of a structured fragment. -/
def assembleChars : List Seg → List Char
  | [] => []
  | sg :: rest => segChars sg ++ assembleChars rest

/-- The result of brand-color substitution on one fragment piece: literals are
kept, a recognized field becomes its brand color. -/
def substSegChars : Seg → List Char
  | Seg.lit s => s.toList
  | Seg.field n =>
    match iconColors n with
    | some v => v.toList
    | none => segChars (Seg.field n)

/-- The result of brand-color substitution on a structured fragment. -/
def substChars : List Seg → List Char
  | [] => []
  | sg :: rest => substSegChars sg ++ substChars rest

/-- Well-formed authoring: literal pieces contain no brace, field names are
plain names (see `plainName`). -/
def segWf : Seg → Bool
  | Seg.lit s => braceFreeL s.toList
  | Seg.field n => plainName n.toList

/-- All pieces well formed. -/
def segsWf (segs : List Seg) : Bool := segs.all segWf

/-- A piece references only the two recognized color parameters. -/
def segRecognized : Seg → Bool
  | Seg.lit _ => true
  | Seg.field n => n == "teal" || n == "dark"

/-- All pieces reference only recognized color parameters. -/
def segsRecognized (segs : List Seg) : Bool := segs.all segRecognized

/-- Some piece is a color placeholder outside the two recognized names. -/
def hasBadField (segs : List Seg) : Bool := segs.any fun sg => !segRecognized sg

theorem braceFree_cons {c : Char} {l : List Char} (h : braceFreeL (c :: l) = true) :
    ¬(c = lbrace) ∧ ¬(c = rbrace) ∧ braceFreeL l = true := by
  simp only [braceFreeL, List.all_cons, Bool.and_eq_true, Bool.not_eq_true',
    Bool.or_eq_false_iff, decide_eq_false_iff_not] at h
  exact ⟨h.1.1, h.1.2, by simp only [braceFreeL]; exact h.2⟩

theorem pyFmtGo_lit (m : String → Option String) :
    ∀ (pre rest acc : List Char), braceFreeL pre = true →
    pyFmtGo m (pre ++ rest) FmtSt.text acc = pyFmtGo m rest FmtSt.text (pre.reverse ++ acc) := by
  intro pre
  induction pre with
  | nil => intro rest acc _; simp
  | cons c pre ih =>
    intro rest acc h
    obtain ⟨hc1, hc2, hrest⟩ := braceFree_cons h
    simp only [List.cons_append, pyFmtGo, List.append_eq, if_neg hc1, if_neg hc2]
    rw [ih rest (c :: acc) hrest]
    simp [List.append_assoc]

theorem pyFmtGo_self (m : String → Option String) (l acc : List Char)
    (h : braceFreeL l = true) :
    pyFmtGo m l FmtSt.text acc = Except.ok (acc.reverse ++ l) := by
  have h2 := pyFmtGo_lit m l [] acc h
  rw [List.append_nil] at h2
  rw [h2]
  simp [pyFmtGo, List.reverse_append]

theorem pyFmtGo_fieldAcc (m : String → Option String) :
    ∀ (nm acc0 acc rest : List Char), braceFreeL nm = true →
    pyFmtGo m (nm ++ rbrace :: rest) (FmtSt.field acc0) acc =
      (match m (String.mk (acc0 ++ nm)) with
      | some v => pyFmtGo m rest FmtSt.text (List.reverseAux v.toList acc)
      | none => Except.error ("KeyError: " ++ String.mk (acc0 ++ nm))) := by
  intro nm
  induction nm with
  | nil =>
    intro acc0 acc rest _
    simp [pyFmtGo]
  | cons c nm ih =>
    intro acc0 acc rest h
    obtain ⟨hc1, hc2, hrest⟩ := braceFree_cons h
    simp only [List.cons_append, pyFmtGo, List.append_eq, if_neg hc1, if_neg hc2]
    rw [ih (acc0 ++ [c]) acc rest hrest]
    simp [List.append_assoc]

theorem pyFmtGo_field (m : String → Option String) (c : Char) (nm rest acc : List Char)
    (h : braceFreeL (c :: nm) = true) :
    pyFmtGo m (lbrace :: c :: (nm ++ rbrace :: rest)) FmtSt.text acc =
      (match m (String.mk (c :: nm)) with
      | some v => pyFmtGo m rest FmtSt.text (List.reverseAux v.toList acc)
      | none => Except.error ("KeyError: " ++ String.mk (c :: nm))) := by
  obtain ⟨hc1, hc2, hnm⟩ := braceFree_cons h
  simp only [pyFmtGo, List.cons_append, List.append_eq, eq_self_iff_true, if_true,
    if_neg hc1, if_neg hc2]
  rw [pyFmtGo_fieldAcc m nm [c] acc rest hnm]
  simp

theorem iconColors_none {n : String} (h1 : ¬(n = "teal")) (h2 : ¬(n = "dark")) :
    iconColors n = none := by
  simp [iconColors, h1, h2]

theorem pyFmtGo_field_some (m : String → Option String) (c : Char)
    (nm rest acc : List Char) (v : String) (h : braceFreeL (c :: nm) = true)
    (hm : m (String.mk (c :: nm)) = some v) :
    pyFmtGo m (lbrace :: c :: (nm ++ rbrace :: rest)) FmtSt.text acc =
      pyFmtGo m rest FmtSt.text (List.reverseAux v.toList acc) := by
  rw [pyFmtGo_field m c nm rest acc h, hm]

theorem pyFmtGo_field_none (m : String → Option String) (c : Char)
    (nm rest acc : List Char) (h : braceFreeL (c :: nm) = true)
    (hm : m (String.mk (c :: nm)) = none) :
    pyFmtGo m (lbrace :: c :: (nm ++ rbrace :: rest)) FmtSt.text acc =
      Except.error ("KeyError: " ++ String.mk (c :: nm)) := by
  rw [pyFmtGo_field m c nm rest acc h, hm]

theorem recognized_field {n : String} (h : (n == "teal" || n == "dark") = true) :
    ∃ c nm v, n.toList = c :: nm ∧ braceFreeL (c :: nm) = true ∧
      iconColors n = some v ∧ substSegChars (Seg.field n) = v.toList ∧
      braceFreeL v.toList = true := by
  rcases Bool.or_eq_true_iff.mp h with h | h
  · have hn : n = "teal" := eq_of_beq h
    subst hn
    exact ⟨'t', ['e', 'a', 'l'], TEAL, rfl, by decide, rfl, rfl, by decide⟩
  · have hn : n = "dark" := eq_of_beq h
    subst hn
    exact ⟨'d', ['a', 'r', 'k'], DARK_GRAY, rfl, by decide, rfl, rfl, by decide⟩

theorem plainName_parts {l : List Char} (hwf : plainName l = true) :
    l.isEmpty = false ∧ braceFreeL l = true := by
  simp only [plainName, Bool.and_eq_true, Bool.not_eq_true'] at hwf
  exact ⟨hwf.1.1, hwf.1.2⟩

theorem unrecognized_field {n : String} (hwf : plainName n.toList = true)
    (h : (n == "teal" || n == "dark") = false) :
    ∃ c nm, n.toList = c :: nm ∧ braceFreeL (c :: nm) = true ∧ iconColors n = none := by
  obtain ⟨hne, hb⟩ := plainName_parts hwf
  rcases hl : n.toList with _ | ⟨c, nm⟩
  · rw [hl] at hne; simp at hne
  · refine ⟨c, nm, rfl, by rw [← hl]; exact hb, ?_⟩
    simp only [Bool.or_eq_false_iff] at h
    exact iconColors_none (fun he => by simp [he] at h) (fun he => by simp [he] at h)

theorem segsWf_cons {sg : Seg} {segs : List Seg} (h : segsWf (sg :: segs) = true) :
    segWf sg = true ∧ segsWf segs = true := by
  simp only [segsWf, List.all_cons, Bool.and_eq_true] at h
  exact ⟨h.1, h.2⟩

theorem segsRecognized_cons {sg : Seg} {segs : List Seg}
    (h : segsRecognized (sg :: segs) = true) :
    segRecognized sg = true ∧ segsRecognized segs = true := by
  simp only [segsRecognized, List.all_cons, Bool.and_eq_true] at h
  exact ⟨h.1, h.2⟩

theorem assemble_ok :
    ∀ (segs : List Seg) (rest acc : List Char),
      segsWf segs = true → segsRecognized segs = true →
      pyFmtGo iconColors (assembleChars segs ++ rest) FmtSt.text acc =
        pyFmtGo iconColors rest FmtSt.text ((substChars segs).reverse ++ acc) := by
  intro segs
  induction segs with
  | nil => intro rest acc _ _; simp [assembleChars, substChars]
  | cons sg segs ih =>
    intro rest acc hwf hrec
    obtain ⟨hwf1, hwf2⟩ := segsWf_cons hwf
    obtain ⟨hrec1, hrec2⟩ := segsRecognized_cons hrec
    cases sg with
    | lit s =>
      have hbf : braceFreeL s.toList = true := hwf1
      simp only [assembleChars, segChars, List.append_assoc]
      rw [pyFmtGo_lit _ _ _ _ hbf, ih _ _ hwf2 hrec2]
      simp [substChars, substSegChars, List.reverse_append, List.append_assoc]
    | field n =>
      obtain ⟨c, nm, v, hn, hbf, hic, hsub, _⟩ := recognized_field hrec1
      simp only [assembleChars, segChars, hn, List.cons_append, List.append_assoc,
        List.singleton_append, List.nil_append]
      have hmk : String.mk (c :: nm) = n := by rw [← hn]; rfl
      rw [pyFmtGo_field_some iconColors c nm _ acc v hbf (by rw [hmk]; exact hic)]
      rw [ih _ _ hwf2 hrec2]
      simp [substChars, hsub, List.reverseAux_eq, List.reverse_append, List.append_assoc]

theorem assemble_bad :
    ∀ (segs : List Seg) (rest acc : List Char),
      segsWf segs = true → hasBadField segs = true →
      ∃ msg, pyFmtGo iconColors (assembleChars segs ++ rest) FmtSt.text acc =
        Except.error msg := by
  intro segs
  induction segs with
  | nil => intro rest acc _ hbad; simp [hasBadField] at hbad
  | cons sg segs ih =>
    intro rest acc hwf hbad
    obtain ⟨hwf1, hwf2⟩ := segsWf_cons hwf
    rcases hr : segRecognized sg with hfalse | htrue
    · -- the head itself is a bad field
      cases sg with
      | lit s => simp [segRecognized] at hr
      | field n =>
        have hplain : plainName n.toList = true := hwf1
        obtain ⟨c, nm, hn, hbf, hic⟩ := unrecognized_field hplain (by
          simpa [segRecognized] using hr)
        refine ⟨"KeyError: " ++ String.mk (c :: nm), ?_⟩
        simp only [assembleChars, segChars, hn, List.cons_append, List.append_assoc,
          List.singleton_append, List.nil_append]
        have hmk : String.mk (c :: nm) = n := by rw [← hn]; rfl
        rw [pyFmtGo_field_none iconColors c nm _ acc hbf (by rw [hmk]; exact hic)]
    · -- the head is fine; a bad field occurs later
      have hbad2 : hasBadField segs = true := by
        simp only [hasBadField, List.any_cons, Bool.or_eq_true_iff, hr] at hbad
        rcases hbad with h | h
        · simp at h
        · simpa [hasBadField] using h
      cases sg with
      | lit s =>
        have hbf : braceFreeL s.toList = true := hwf1
        obtain ⟨msg, hmsg⟩ := ih (rest) (s.toList.reverse ++ acc) hwf2 hbad2
        refine ⟨msg, ?_⟩
        simp only [assembleChars, segChars, List.append_assoc]
        rw [pyFmtGo_lit _ _ _ _ hbf]
        exact hmsg
      | field n =>
        obtain ⟨c, nm, v, hn, hbf, hic, _, _⟩ := recognized_field (by
          simpa [segRecognized] using hr)
        obtain ⟨msg, hmsg⟩ := ih rest (List.reverseAux v.toList acc) hwf2 hbad2
        refine ⟨msg, ?_⟩
        simp only [assembleChars, segChars, hn, List.cons_append, List.append_assoc,
          List.singleton_append, List.nil_append]
        have hmk : String.mk (c :: nm) = n := by rw [← hn]; rfl
        rw [pyFmtGo_field_some iconColors c nm _ acc v hbf (by rw [hmk]; exact hic)]
        exact hmsg

theorem braceFreeL_append {a b : List Char} :
    braceFreeL (a ++ b) = (braceFreeL a && braceFreeL b) := by
  simp [braceFreeL, List.all_append]

theorem substChars_braceFree :
    ∀ (segs : List Seg), segsWf segs = true → segsRecognized segs = true →
      braceFreeL (substChars segs) = true := by
  intro segs
  induction segs with
  | nil => intro _ _; rfl
  | cons sg segs ih =>
    intro hwf hrec
    obtain ⟨hwf1, hwf2⟩ := segsWf_cons hwf
    obtain ⟨hrec1, hrec2⟩ := segsRecognized_cons hrec
    have htail := ih hwf2 hrec2
    show braceFreeL (substSegChars sg ++ substChars segs) = true
    rw [braceFreeL_append, Bool.and_eq_true]
    refine ⟨?_, htail⟩
    cases sg with
    | lit s => exact hwf1
    | field n =>
      obtain ⟨c, nm, v, _, _, _, hsub, hvbf⟩ := recognized_field hrec1
      rw [hsub]
      exact hvbf

theorem pyFormat_assemble_ok (segs : List Seg) (hwf : segsWf segs = true)
    (hrec : segsRecognized segs = true) :
    pyFormat (String.mk (assembleChars segs)) iconColors =
      Except.ok (String.mk (substChars segs)) := by
  unfold pyFormat
  rw [show (String.mk (assembleChars segs)).toList = assembleChars segs from rfl]
  have h1 := assemble_ok segs [] [] hwf hrec
  rw [List.append_nil] at h1
  rw [h1]
  simp [pyFmtGo]

theorem pyFormat_assemble_bad (segs : List Seg) (hwf : segsWf segs = true)
    (hbad : hasBadField segs = true) :
    ∃ msg, pyFormat (String.mk (assembleChars segs)) iconColors = Except.error msg := by
  obtain ⟨msg, h⟩ := assemble_bad segs [] [] hwf hbad
  rw [List.append_nil] at h
  refine ⟨msg, ?_⟩
  unfold pyFormat
  rw [show (String.mk (assembleChars segs)).toList = assembleChars segs from rfl, h]

theorem template_split :
    SVG_TEMPLATE.toList =
      svgHeadChars ++ lbrace :: 'i' :: ("con_path".toList ++ rbrace :: svgTailChars) := by
  rfl

theorem template_render (s : String) :
    pyFormat SVG_TEMPLATE (fun n => if n = "icon_path" then some s else none) =
      Except.ok (String.mk (svgHeadChars ++ (s.toList ++ svgTailChars))) := by
  unfold pyFormat
  rw [template_split]
  rw [pyFmtGo_lit _ _ _ _ (by decide)]
  rw [pyFmtGo_field_some _ 'i' ("con_path".toList) _ _ s (by decide) (by rfl)]
  rw [pyFmtGo_self _ _ _ (by decide)]
  simp [List.reverseAux_eq, List.reverse_append, List.append_assoc]

theorem generate_svg_ok (dn frag colored : String)
    (h : pyFormat frag iconColors = Except.ok colored) :
    generate_svg dn frag =
      Except.ok (String.mk (svgHeadChars ++ (colored.toList ++ svgTailChars))) := by
  unfold generate_svg
  rw [h]
  exact template_render colored

theorem generate_svg_err (dn frag msg : String)
    (h : pyFormat frag iconColors = Except.error msg) :
    generate_svg dn frag = Except.error msg := by
  unfold generate_svg
  rw [h]

theorem device_icons_render_all : DEVICE_ICONS.all renderOk = true := by rfl

theorem renderOk_of_mem {p : String × String} (hp : p ∈ DEVICE_ICONS) : renderOk p = true :=
  List.all_eq_true.mp device_icons_render_all p hp

theorem countIconsStarted_append (a b : List Event) :
    countIconsStarted (a ++ b) = countIconsStarted a + countIconsStarted b :=
  List.countP_append _ _ _

theorem svgWrites_append (a b : List Event) :
    svgWrites (a ++ b) = svgWrites a ++ svgWrites b :=
  List.filterMap_append _ _ _

theorem processSizes_spec (oracle : RasterOracle) (dn ip sf : String)
    (h : ∀ s msg, oracle dn s ≠ RasterOutcome.launchError msg) :
    ∀ sizes : List (String × Nat),
      (processSizes oracle dn ip sf sizes).2 = none
      ∧ countIconsStarted (processSizes oracle dn ip sf sizes).1 = 0
      ∧ svgWrites (processSizes oracle dn ip sf sizes).1 = []
      ∧ (∀ q ∈ sizes, Event.runRasterizer sf q.2 (pathJoin ip (q.1 ++ ".png"))
          ∈ (processSizes oracle dn ip sf sizes).1)
      ∧ (∀ q ∈ sizes, ∀ msg, oracle dn q.1 = RasterOutcome.exitError msg →
          Event.printLine ("  ERROR creating " ++ q.1 ++ ".png: " ++ msg)
            ∈ (processSizes oracle dn ip sf sizes).1) := by
  intro sizes
  induction sizes with
  | nil => exact ⟨rfl, rfl, rfl, by simp, by simp⟩
  | cons q sizes ih =>
    obtain ⟨ih1, ih2, ih3, ih4, ih5⟩ := ih
    rcases q with ⟨sn, sz⟩
    rcases hrec : processSizes oracle dn ip sf sizes with ⟨evs, err⟩
    rw [hrec] at ih1 ih2 ih3 ih4 ih5
    have herr : err = none := ih1
    subst herr
    rcases ho : oracle dn sn with _ | msg0 | msg0
    case launchError => exact absurd ho (h sn msg0)
    case success =>
      have hps : processSizes oracle dn ip sf ((sn, sz) :: sizes) =
          (Event.runRasterizer sf sz (pathJoin ip (sn ++ ".png")) ::
            Event.printLine
              ("  Created " ++ sn ++ ".png (" ++ toString sz ++ "x" ++ toString sz ++ ")") ::
            evs, none) := by
        simp only [processSizes, ho, hrec]
      rw [hps]
      refine ⟨rfl, ?_, ?_, ?_, ?_⟩
      · simpa [countIconsStarted, List.countP_cons] using ih2
      · simpa [svgWrites, List.filterMap_cons] using ih3
      · intro q hq
        rcases List.mem_cons.mp hq with hq | hq
        · subst hq
          exact List.mem_cons_self _ _
        · exact List.mem_cons_of_mem _ (List.mem_cons_of_mem _ (ih4 q hq))
      · intro q hq msg hmsg
        rcases List.mem_cons.mp hq with hq | hq
        · subst hq
          rw [ho] at hmsg
          cases hmsg
        · exact List.mem_cons_of_mem _ (List.mem_cons_of_mem _ (ih5 q hq msg hmsg))
    case exitError =>
      have hps : processSizes oracle dn ip sf ((sn, sz) :: sizes) =
          (Event.runRasterizer sf sz (pathJoin ip (sn ++ ".png")) ::
            Event.printLine ("  ERROR creating " ++ sn ++ ".png: " ++ msg0) ::
            evs, none) := by
        simp only [processSizes, ho, hrec]
      rw [hps]
      refine ⟨rfl, ?_, ?_, ?_, ?_⟩
      · simpa [countIconsStarted, List.countP_cons] using ih2
      · simpa [svgWrites, List.filterMap_cons] using ih3
      · intro q hq
        rcases List.mem_cons.mp hq with hq | hq
        · subst hq
          exact List.mem_cons_self _ _
        · exact List.mem_cons_of_mem _ (List.mem_cons_of_mem _ (ih4 q hq))
      · intro q hq msg hmsg
        rcases List.mem_cons.mp hq with hq | hq
        · subst hq
          rw [ho] at hmsg
          injection hmsg with hm
          subst hm
          exact List.mem_cons_of_mem _ (List.mem_cons_self _ _)
        · exact List.mem_cons_of_mem _ (List.mem_cons_of_mem _ (ih5 q hq msg hmsg))

theorem processIcon_run (oracle : RasterOracle) (dd dn frag doc : String)
    (hok : generate_svg dn frag = Except.ok doc)
    (h : ∀ s msg, oracle dn s ≠ RasterOutcome.launchError msg) :
    processIcon oracle dd dn frag =
      (Event.makedirs (imagesPathD dd dn) ::
        Event.writeFile (svgFileD dd dn) doc ::
        Event.printLine ("Created SVG for " ++ dn) ::
        ((processSizes oracle dn (imagesPathD dd dn) (svgFileD dd dn) sizesList).1 ++
          [Event.removeFile (svgFileD dd dn)]), none) := by
  have hps := (processSizes_spec oracle dn (imagesPathD dd dn) (svgFileD dd dn) h sizesList).1
  rcases hrec : processSizes oracle dn (imagesPathD dd dn) (svgFileD dd dn) sizesList
    with ⟨evs, err⟩
  rw [hrec] at hps
  have herr : err = none := hps
  subst herr
  simp only [imagesPathD, svgFileD] at hrec
  simp only [processIcon, hok, hrec, imagesPathD, svgFileD]

theorem mainRun_spec (oracle : RasterOracle) (dd : String)
    (h : ∀ n s msg, oracle n s ≠ RasterOutcome.launchError msg) :
    ∀ icons : List (String × String), (∀ p ∈ icons, renderOk p = true) →
      (mainRun oracle dd icons).2 = none
      ∧ countIconsStarted (mainRun oracle dd icons).1 = icons.length
      ∧ svgWrites (mainRun oracle dd icons).1 = icons.map (fun p => svgFileD dd p.1)
      ∧ ∀ p ∈ icons,
          Event.removeFile (svgFileD dd p.1) ∈ (mainRun oracle dd icons).1
          ∧ (∀ q ∈ sizesList,
              Event.runRasterizer (svgFileD dd p.1) q.2
                (pathJoin (imagesPathD dd p.1) (q.1 ++ ".png")) ∈ (mainRun oracle dd icons).1)
          ∧ (∀ q ∈ sizesList, ∀ msg, oracle p.1 q.1 = RasterOutcome.exitError msg →
              Event.printLine ("  ERROR creating " ++ q.1 ++ ".png: " ++ msg)
                ∈ (mainRun oracle dd icons).1) := by
  intro icons
  induction icons with
  | nil => intro _; exact ⟨rfl, rfl, rfl, by simp⟩
  | cons p icons ih =>
    intro hall
    rcases p with ⟨dn, frag⟩
    have hren : renderOk (dn, frag) = true := hall _ (List.mem_cons_self _ _)
    obtain ⟨doc, hdoc⟩ : ∃ doc, generate_svg dn frag = Except.ok doc := by
      unfold renderOk at hren
      rcases hg : generate_svg dn frag with msg | doc
      · rw [hg] at hren; simp at hren
      · exact ⟨doc, rfl⟩
    have hpi := processIcon_run oracle dd dn frag doc hdoc (fun s msg => h dn s msg)
    rcases hmr : mainRun oracle dd icons with ⟨evs2, err2⟩
    have ihh := ih (fun p hp => hall p (List.mem_cons_of_mem _ hp))
    rw [hmr] at ihh
    obtain ⟨ih1, ih2, ih3, ih4⟩ := ihh
    have herr2 : err2 = none := ih1
    subst herr2
    have hstep : mainRun oracle dd ((dn, frag) :: icons) =
        ((Event.makedirs (imagesPathD dd dn) ::
          Event.writeFile (svgFileD dd dn) doc ::
          Event.printLine ("Created SVG for " ++ dn) ::
          ((processSizes oracle dn (imagesPathD dd dn) (svgFileD dd dn) sizesList).1 ++
            [Event.removeFile (svgFileD dd dn)])) ++ evs2, none) := by
      simp only [mainRun, hpi, hmr]
    rw [hstep]
    obtain ⟨_, hps2, hps3, hps4, hps5⟩ :=
      processSizes_spec oracle dn (imagesPathD dd dn) (svgFileD dd dn)
        (fun s msg => h dn s msg) sizesList
    refine ⟨rfl, ?_, ?_, ?_⟩
    · rw [countIconsStarted_append]
      have h1 : countIconsStarted
          (Event.makedirs (imagesPathD dd dn) ::
            Event.writeFile (svgFileD dd dn) doc ::
            Event.printLine ("Created SVG for " ++ dn) ::
            ((processSizes oracle dn (imagesPathD dd dn) (svgFileD dd dn) sizesList).1 ++
              [Event.removeFile (svgFileD dd dn)])) = 1 := by
        simp only [countIconsStarted, List.countP_cons, List.countP_append] at hps2 ⊢
        rw [hps2]
        rfl
      rw [h1, ih2]
      simp [Nat.add_comm]
    · rw [svgWrites_append]
      have h2 : svgWrites
          (Event.makedirs (imagesPathD dd dn) ::
            Event.writeFile (svgFileD dd dn) doc ::
            Event.printLine ("Created SVG for " ++ dn) ::
            ((processSizes oracle dn (imagesPathD dd dn) (svgFileD dd dn) sizesList).1 ++
              [Event.removeFile (svgFileD dd dn)])) = [svgFileD dd dn] := by
        simp only [svgWrites, List.filterMap_cons, List.filterMap_append] at hps3 ⊢
        rw [hps3]
        rfl
      rw [h2, ih3]
      rfl
    · intro p hp
      rcases List.mem_cons.mp hp with hp | hp
      · subst hp
        refine ⟨?_, ?_, ?_⟩
        · apply List.mem_append_left
          exact List.mem_cons_of_mem _ (List.mem_cons_of_mem _ (List.mem_cons_of_mem _
            (List.mem_append_right _ (List.mem_singleton.mpr rfl))))
        · intro q hq
          apply List.mem_append_left
          exact List.mem_cons_of_mem _ (List.mem_cons_of_mem _ (List.mem_cons_of_mem _
            (List.mem_append_left _ (hps4 q hq))))
        · intro q hq msg hmsg
          apply List.mem_append_left
          exact List.mem_cons_of_mem _ (List.mem_cons_of_mem _ (List.mem_cons_of_mem _
            (List.mem_append_left _ (hps5 q hq msg hmsg))))
      · obtain ⟨hm1, hm2, hm3⟩ := ih4 p hp
        exact ⟨List.mem_append_right _ hm1,
          fun q hq => List.mem_append_right _ (hm2 q hq),
          fun q hq msg hmsg => List.mem_append_right _ (hm3 q hq msg hmsg)⟩

/-- Claim C10: for every one of the 21 shape fragments actually present in the
catalog, rendering succeeds — `generate_svg`'s substitution-failure branch is
unreachable on catalog data, so generating the document for any catalog entry
never raises. Stated as the executable check that `generate_svg` returns
`Except.ok` on every entry of `DEVICE_ICONS`. -/
theorem c10_catalog_renders : DEVICE_ICONS.all renderOk = true :=
  device_icons_render_all

/-- Claim C6: the set of identifiers processed by one full run equals exactly
the 21 fixed identifiers of the spec, with exactly those spellings, in the
catalog's fixed definition order; and on any base directory a full run (here:
all rasterizations succeeding) writes the per-icon documents for exactly those
identifiers in exactly that order, so the processing order is deterministic and
identical across runs (the model is a pure function of the oracle and base
directory). -/
theorem c6_catalog_identifiers :
    DEVICE_ICONS.map Prod.fst =
      ["all-devices", "blinds", "camera", "diffuser", "doorbell", "fan", "garage",
       "heater-cooler", "home-away", "humidifier", "kettle", "light", "lock", "outlet",
       "purifier", "robot", "sensor", "smoke-co-detector", "switch", "thermostat", "valve"]
    ∧ ∀ baseDir : String,
        svgWrites (scriptMain baseDir successOracle).1 =
          DEVICE_ICONS.map (fun p => svgFileD (pathJoin baseDir "drivers") p.1) := by
  constructor
  · rfl
  · intro baseDir
    have h := mainRun_spec successOracle (pathJoin baseDir "drivers")
      (by intro n s msg; simp [successOracle]) DEVICE_ICONS
      (fun p hp => renderOk_of_mem hp)
    exact h.2.2.1

/-- Claim C2: for every catalog entry, with every rasterizer invocation either
succeeding or exiting non-zero (the reported `RasterizationFailed` condition —
an uncaught launch failure is C1's territory), the run finishes normally, all
three sizes of every icon are attempted, and the intermediate `icon.svg` is
deleted for every icon regardless of which rasterizations failed. -/
theorem c2_cleanup_unconditional (oracle : RasterOracle) (baseDir : String)
    (h : ∀ n s msg, oracle n s ≠ RasterOutcome.launchError msg) :
    (scriptMain baseDir oracle).2 = none
    ∧ ∀ p ∈ DEVICE_ICONS,
        Event.removeFile (svgFileD (pathJoin baseDir "drivers") p.1)
          ∈ (scriptMain baseDir oracle).1
        ∧ ∀ q ∈ sizesList,
            Event.runRasterizer (svgFileD (pathJoin baseDir "drivers") p.1) q.2
              (pathJoin (imagesPathD (pathJoin baseDir "drivers") p.1) (q.1 ++ ".png"))
              ∈ (scriptMain baseDir oracle).1 := by
  have hm := mainRun_spec oracle (pathJoin baseDir "drivers") h DEVICE_ICONS
    (fun p hp => renderOk_of_mem hp)
  exact ⟨hm.1, fun p hp => ⟨(hm.2.2.2 p hp).1, (hm.2.2.2 p hp).2.1⟩⟩

/-- The oracle of a machine where every rasterizer invocation exits non-zero
(e.g. a corrupt input): the `CalledProcessError` case, always. -/
def exitFailOracle : RasterOracle :=
  fun _ _ => RasterOutcome.exitError "returned non-zero exit status 1."

theorem c2_cleanup_unconditional_witness :
    (scriptMain "/repo" exitFailOracle).2 = none :=
  (c2_cleanup_unconditional exitFailOracle "/repo"
    (by intro n s msg; simp [exitFailOracle])).1

/-- The oracle of a machine where `rsvg-convert` is not installed: the very
first invocation fails to launch (Python raises `FileNotFoundError`). -/
def toolMissingOracle : RasterOracle := fun n s =>
  if n == "all-devices" && s == "small" then
    RasterOutcome.launchError "FileNotFoundError: rsvg-convert"
  else RasterOutcome.success

/-- Claim C1 counterexample: when the rasterizer subprocess cannot be started
(the tool is not installed), the failure is NOT caught — `main` only catches
`subprocess.CalledProcessError`. With the launch failing on the first size of
the first icon, the run aborts with an uncaught error and only one icon is ever
started: the remaining sizes and all 20 subsequent icons are never attempted,
contradicting the claim that this case is reported per-size and processing
continues. -/
theorem c1_counterexample :
    (scriptMain "/repo" toolMissingOracle).2 =
      some (RunError.rasterLaunchError "FileNotFoundError: rsvg-convert")
    ∧ countIconsStarted (scriptMain "/repo" toolMissingOracle).1 = 1 :=
  ⟨rfl, rfl⟩

/-- Claim C1 as amended: only the non-zero-exit case is a caught, per-size
reported `RasterizationFailed` condition. Whenever no invocation fails to
launch, every non-zero exit is reported with its per-size console error line
and processing continues through all 21 icons to a normal finish; a launch
failure, by contrast, aborts the run (see the counterexample). -/
theorem c1_amended_error_handling (oracle : RasterOracle) (baseDir : String)
    (h : ∀ n s msg, oracle n s ≠ RasterOutcome.launchError msg) :
    (scriptMain baseDir oracle).2 = none
    ∧ countIconsStarted (scriptMain baseDir oracle).1 = 21
    ∧ ∀ p ∈ DEVICE_ICONS, ∀ q ∈ sizesList, ∀ msg,
        oracle p.1 q.1 = RasterOutcome.exitError msg →
        Event.printLine ("  ERROR creating " ++ q.1 ++ ".png: " ++ msg)
          ∈ (scriptMain baseDir oracle).1 := by
  have hm := mainRun_spec oracle (pathJoin baseDir "drivers") h DEVICE_ICONS
    (fun p hp => renderOk_of_mem hp)
  exact ⟨hm.1, hm.2.1, fun p hp q hq msg hmsg => (hm.2.2.2 p hp).2.2 q hq msg hmsg⟩

theorem c1_amended_error_handling_witness :
    countIconsStarted (scriptMain "/repo" exitFailOracle).1 = 21 :=
  (c1_amended_error_handling exitFailOracle "/repo"
    (by intro n s msg; simp [exitFailOracle])).2.1

/-- Claim C7: for a catalog identifier, `main` works under the directory
`<drivers-root>/<identifier>/assets/images`, where `<drivers-root>` is the
`drivers` subdirectory one level above the script's containing directory
(`pathJoin baseDir "drivers"` with `baseDir` standing for the double-dirname
of the script path); the intermediate document goes to `<dir>/icon.svg`, and
the raster outputs are `small.png` at 75, `large.png` at 500 and `xlarge.png`
at 1000, attempted in exactly that order. The first two conjuncts flatten the
path computations; the third is the complete ordered effect trace of one icon
(on a machine where rasterization succeeds). -/
theorem c7_output_layout (baseDir name frag doc : String)
    (hok : generate_svg name frag = Except.ok doc) :
    imagesPathD (pathJoin baseDir "drivers") name
      = baseDir ++ "/drivers/" ++ name ++ "/assets/images"
    ∧ svgFileD (pathJoin baseDir "drivers") name
      = baseDir ++ "/drivers/" ++ name ++ "/assets/images/icon.svg"
    ∧ processIcon successOracle (pathJoin baseDir "drivers") name frag =
      ([Event.makedirs (imagesPathD (pathJoin baseDir "drivers") name),
        Event.writeFile (svgFileD (pathJoin baseDir "drivers") name) doc,
        Event.printLine ("Created SVG for " ++ name),
        Event.runRasterizer (svgFileD (pathJoin baseDir "drivers") name) 75
          (pathJoin (imagesPathD (pathJoin baseDir "drivers") name) "small.png"),
        Event.printLine "  Created small.png (75x75)",
        Event.runRasterizer (svgFileD (pathJoin baseDir "drivers") name) 500
          (pathJoin (imagesPathD (pathJoin baseDir "drivers") name) "large.png"),
        Event.printLine "  Created large.png (500x500)",
        Event.runRasterizer (svgFileD (pathJoin baseDir "drivers") name) 1000
          (pathJoin (imagesPathD (pathJoin baseDir "drivers") name) "xlarge.png"),
        Event.printLine "  Created xlarge.png (1000x1000)",
        Event.removeFile (svgFileD (pathJoin baseDir "drivers") name)], none) := by
  refine ⟨?_, ?_, ?_⟩
  · show imagesPathD (pathJoin baseDir "drivers") name
      = ((baseDir ++ (("/" ++ "drivers") ++ "/")) ++ name)
        ++ ((("/" ++ "assets") ++ "/") ++ "images")
    simp only [imagesPathD, pathJoin, String.append_assoc]
  · show svgFileD (pathJoin baseDir "drivers") name
      = ((baseDir ++ (("/" ++ "drivers") ++ "/")) ++ name)
        ++ ((((("/" ++ "assets") ++ "/") ++ "images") ++ "/") ++ "icon.svg")
    simp only [svgFileD, imagesPathD, pathJoin, String.append_assoc]
  · have hpi := processIcon_run successOracle (pathJoin baseDir "drivers") name frag doc hok
      (by intro s msg; simp [successOracle])
    rw [hpi]
    rfl

theorem c7_output_layout_witness :
    imagesPathD (pathJoin "/repo" "drivers") "lock" = "/repo/drivers/lock/assets/images" :=
  (c7_output_layout "/repo" "lock" "" emptyFragDoc (by rfl)).1

/-- Claim C9: the Renderer is a pure, deterministic function of its
shape-fragment input and the fixed brand constants: it is modelled as a pure
function (no event in the effect trace is attributable to it), two calls on
the same fragment yield byte-identical document text, and the result does not
depend on the `device_name` argument. -/
theorem c9_renderer_pure (dn dn' frag doc doc' : String)
    (h : generate_svg dn frag = Except.ok doc)
    (h' : generate_svg dn' frag = Except.ok doc') : doc = doc' := by
  have he : generate_svg dn frag = generate_svg dn' frag := rfl
  rw [he, h'] at h
  injection h with hh
  exact hh.symm

theorem c9_renderer_pure_witness :
    generate_svg "a" "" = Except.ok emptyFragDoc ∧ emptyFragDoc = emptyFragDoc :=
  ⟨by rfl, c9_renderer_pure "a" "b" "" emptyFragDoc emptyFragDoc (by rfl) (by rfl)⟩

/-- Claim C3: for any shape fragment that uses only the two recognized color
placeholders (structured as `segs`: brace-free literals and fields named
`teal`/`dark` — the source's names for the primary and accent parameters),
rendering succeeds and the output document is the template head, then the
fragment with `teal` replaced by `TEAL = "#44DBBD"` and `dark` replaced by
`DARK_GRAY = "#2F2E2E"` at every occurrence (that is `substChars segs`), then
the template tail; and the substituted fragment — indeed the whole document —
contains no brace character, hence no remaining or new placeholder text. -/
theorem c3_substitution (dn : String) (segs : List Seg)
    (hwf : segsWf segs = true) (hrec : segsRecognized segs = true) :
    generate_svg dn (String.mk (assembleChars segs)) =
      Except.ok (String.mk (svgHeadChars ++ (substChars segs ++ svgTailChars)))
    ∧ substSegChars (Seg.field "teal") = TEAL.toList
    ∧ substSegChars (Seg.field "dark") = DARK_GRAY.toList
    ∧ braceFreeL (substChars segs) = true
    ∧ braceFreeL (svgHeadChars ++ (substChars segs ++ svgTailChars)) = true := by
  have hpf := pyFormat_assemble_ok segs hwf hrec
  have hg := generate_svg_ok dn _ _ hpf
  refine ⟨hg, rfl, rfl, substChars_braceFree segs hwf hrec, ?_⟩
  rw [braceFreeL_append, braceFreeL_append]
  rw [show braceFreeL svgHeadChars = true by decide]
  rw [show braceFreeL svgTailChars = true by decide]
  rw [substChars_braceFree segs hwf hrec]
  rfl

/-- A sample fragment for the C3 witness: a literal, a primary-color field,
a literal. -/
def c3wSegs : List Seg := [Seg.lit "<circle r=\"9\" fill=\"", Seg.field "teal", Seg.lit "\"/>"]

theorem c3_substitution_witness :
    segsWf c3wSegs = true ∧
    generate_svg "x" (String.mk (assembleChars c3wSegs)) =
      Except.ok (String.mk (svgHeadChars ++ (substChars c3wSegs ++ svgTailChars))) :=
  ⟨by rfl, (c3_substitution "x" c3wSegs (by rfl) (by rfl)).1⟩

/-- Claim C4: a shape fragment containing a color placeholder outside the two
recognized names (a well-formed plain field name other than `teal`/`dark`)
makes the Renderer raise (`Except.error`, the modelled `KeyError`) instead of
silently emitting an unsubstituted placeholder; and the failure is not caught
anywhere in `main`: a catalog whose entry has such a fragment aborts the entire
run at that entry — the trace stops at the `os.makedirs` call of that icon and
every later entry (and the icon's own file write) is never reached. -/
theorem c4_invalid_placeholder (segs : List Seg)
    (hwf : segsWf segs = true) (hbad : hasBadField segs = true) :
    (∀ dn, ∃ msg, generate_svg dn (String.mk (assembleChars segs)) = Except.error msg)
    ∧ ∀ (oracle : RasterOracle) (dd nm : String) (rest : List (String × String)),
        ∃ msg, mainRun oracle dd ((nm, String.mk (assembleChars segs)) :: rest) =
          ([Event.makedirs (imagesPathD dd nm)], some (RunError.renderError msg)) := by
  obtain ⟨msg, hpf⟩ := pyFormat_assemble_bad segs hwf hbad
  constructor
  · intro dn
    exact ⟨msg, generate_svg_err dn _ msg hpf⟩
  · intro oracle dd nm rest
    refine ⟨msg, ?_⟩
    have hgen := generate_svg_err nm _ msg hpf
    have hpi : processIcon oracle dd nm (String.mk (assembleChars segs)) =
        ([Event.makedirs (imagesPathD dd nm)], some (RunError.renderError msg)) := by
      simp only [processIcon, hgen, imagesPathD]
    simp only [mainRun, hpi]

/-- A sample fragment for the C4 witness: a single unrecognized placeholder. -/
def c4wSegs : List Seg := [Seg.field "primary"]

theorem c4_invalid_placeholder_witness :
    ∃ msg, generate_svg "x" (String.mk (assembleChars c4wSegs)) = Except.error msg :=
  (c4_invalid_placeholder c4wSegs (by rfl) (by rfl)).1 "x"

/-- The full-canvas opaque white background rectangle of the template. -/
def bgRectChars : List Char := "<rect width=\"1000\" height=\"1000\" fill=\"white\"/>".toList

/-- The opening tag of the group translated by (500, 500). -/
def groupOpenChars : List Char := "<g transform=\"translate(500, 500)\">".toList

/-- The 1000-by-1000 canvas declaration of the template root element. -/
def canvasChars : List Char :=
  "width=\"1000\" height=\"1000\" viewBox=\"0 0 1000 1000\"".toList

/-- Claim C5: for every shape fragment (any fragment whose color substitution
succeeds), the rendered document is exactly template-head ++ colorized fragment
++ template-tail, so the group wraps the colorized fragment verbatim; and the
template head declares the 1000-by-1000 canvas and contains the full-canvas
opaque white background rectangle strictly before the group translated by
(500, 500) in document order. -/
theorem c5_document_structure (dn frag colored : String)
    (h : pyFormat frag iconColors = Except.ok colored) :
    generate_svg dn frag =
      Except.ok (String.mk (svgHeadChars ++ (colored.toList ++ svgTailChars)))
    ∧ containsSeq canvasChars svgHeadChars = true
    ∧ containsSeq bgRectChars svgHeadChars = true
    ∧ containsSeq groupOpenChars svgHeadChars = true
    ∧ idxOfSeq bgRectChars svgHeadChars < idxOfSeq groupOpenChars svgHeadChars :=
  ⟨generate_svg_ok dn frag colored h, by rfl, by rfl, by rfl, by decide⟩

theorem c5_document_structure_witness :
    generate_svg "x" "" =
      Except.ok (String.mk (svgHeadChars ++ ("".toList ++ svgTailChars))) :=
  (c5_document_structure "x" "" "" (by rfl)).1

/-- Claim C8: every catalog fragment references only the two named color
parameters as placeholders; every `#`-hex color literal in a fragment is one of
the two status colors; every `fill`/`stroke` paint value is a placeholder of
the two parameters, literal `white`, a status color, or the non-paint `none`;
alert red `#FF5555` occurs exactly in the `camera` and `smoke-co-detector`
fragments and healthy green `#55CC55` exactly in the `purifier` fragment. -/
theorem c8_color_discipline :
    (DEVICE_ICONS.all fun p =>
      (placeholdersOf p.2).all fun n => n == "teal" || n == "dark") = true
    ∧ (DEVICE_ICONS.all fun p => hashOk p.2.toList) = true
    ∧ (DEVICE_ICONS.all fun p =>
        (paintValues p.2).all fun v => allowedPaints.contains v) = true
    ∧ (DEVICE_ICONS.all fun p =>
        !(containsSeq "#FF5555".toList p.2.toList)
          || (p.1 == "camera" || p.1 == "smoke-co-detector")) = true
    ∧ (DEVICE_ICONS.all fun p =>
        !(containsSeq "#55CC55".toList p.2.toList) || p.1 == "purifier") = true
    ∧ (DEVICE_ICONS.any fun p =>
        p.1 == "camera" && containsSeq "#FF5555".toList p.2.toList) = true
    ∧ (DEVICE_ICONS.any fun p =>
        p.1 == "smoke-co-detector" && containsSeq "#FF5555".toList p.2.toList) = true
    ∧ (DEVICE_ICONS.any fun p =>
        p.1 == "purifier" && containsSeq "#55CC55".toList p.2.toList) = true :=
  ⟨rfl, rfl, rfl, rfl, rfl, rfl, rfl, rfl⟩
